import Mathlib

/-!
Shallow embedding of `src/main.js` of companion-module-tieline-gateway.

The module instance (`ModuleInstance`) is modelled as an explicit state
record.  JavaScript timers (`setTimeout` / `setInterval`) are modelled by a
list of live timers carried in the state, together with the instance fields
`reconnectTimeout` / `heartbeatInterval` that store the handle of the most
recently armed timer, exactly as the source stores them.  `clearTimeout` /
`clearInterval` remove the timer with the matching handle from the live list
(the field itself is only nulled where the source nulls it).

Calls into the sibling modules that are not part of `src/` (auth.js,
heartbeat.js, matrix.js, api.js) are modelled by environment parameters: an
optional result value (success / thrown error) plus an `ExternEffect` saying
how many network requests and how many `digestAuth` nonce-counter uses the
external call performed.  All theorems quantify over these parameters.
-/

namespace TielineGateway

/-- Connection status values used by `main.js` (from the host runtime's
`InstanceStatus` enum), plus `Uninitialized` for the freshly constructed
instance before `init` ran. -/
inductive InstanceStatus where
  | Uninitialized
  | Connecting
  | Ok
  | ConnectionFailure
  | BadConfig
deriving DecidableEq, Repr

/-- The configuration record.  `none` models a missing field, `some ""` an
empty one; JavaScript treats both as falsy in `!this.config.host`. -/
structure Config where
  host : Option String
  username : Option String
  password : Option String
deriving DecidableEq, Repr

/-- JavaScript truthiness of an optional string field. -/
def truthy : Option String → Bool
  | none => false
  | some s => !s.isEmpty

/-- The check `this.config.host && this.config.username && this.config.password`
used (negated) by `init`, `configUpdated` and `authenticate`. -/
def configComplete (c : Config) : Bool :=
  truthy c.host && truthy c.username && truthy c.password

/-- Kind of a JavaScript timer armed by the module: the one-shot reconnect
timeout or the repeating heartbeat interval. -/
inductive TimerKind where
  | reconnect
  | heartbeat
deriving DecidableEq, Repr

/-- A live JavaScript timer: its handle, its kind, and the delay it was armed
with (milliseconds). -/
structure Timer where
  id : Nat
  kind : TimerKind
  delay : Nat
deriving DecidableEq, Repr

def Timer.isReconnect (t : Timer) : Bool :=
  match t.kind with
  | TimerKind.reconnect => true
  | TimerKind.heartbeat => false

def Timer.isHeartbeat (t : Timer) : Bool :=
  match t.kind with
  | TimerKind.reconnect => false
  | TimerKind.heartbeat => true

/-- Result of a successful `auth.authenticate(this)` call (external module). -/
structure AuthResult where
  authHeader : String
  csrfToken : Option String
  realm : String
  nonce : String
deriving DecidableEq, Repr

/-- Result of a successful `heartbeat.sendHeartbeat(this)` call. -/
structure HBResult where
  authHeader : String
  csrfToken : Option String
deriving DecidableEq, Repr

/-- Observable effect of an external call: how many network requests it made
and how many times it consumed the shared nonce counter via `digestAuth`. -/
structure ExternEffect where
  net : Nat
  nc : Nat
deriving DecidableEq, Repr

/-- The state of a `ModuleInstance`: the fields assigned in the constructor
(main.js lines 15-27) plus the modelled timer list, a log trail, and a
network-request counter used to state "performs no network call". -/
structure ModuleState where
  config : Config
  status : InstanceStatus
  authHeader : Option String
  csrfToken : Option String
  realm : Option String
  nonce : Option String
  ncCounter : Nat
  lastAuthTime : Option Nat
  connectionFailed : Bool
  reconnectAttempts : Nat
  reconnectTimeout : Option Nat
  heartbeatInterval : Option Nat
  matrixVariables : Option (List (String × List String))
  actionsRegistered : Bool
  timers : List Timer
  nextTimerId : Nat
  logs : List (String × String)
  networkCalls : Nat
deriving DecidableEq, Repr

/-- The constructor (main.js lines 15-27): all session fields null,
`ncCounter = 1`, no timers, `reconnectAttempts = 0`. -/
def initialState : ModuleState :=
  { config := { host := none, username := none, password := none }
    status := InstanceStatus.Uninitialized
    authHeader := none
    csrfToken := none
    realm := none
    nonce := none
    ncCounter := 1
    lastAuthTime := none
    connectionFailed := false
    reconnectAttempts := 0
    reconnectTimeout := none
    heartbeatInterval := none
    matrixVariables := none
    actionsRegistered := false
    timers := []
    nextTimerId := 0
    logs := []
    networkCalls := 0 }

/-- Arm a timer: returns the fresh handle and adds the timer to the live
list. -/
def setTimeout (kind : TimerKind) (delay : Nat) (st : ModuleState) :
    Nat × ModuleState :=
  (st.nextTimerId,
   { st with
      timers := st.timers ++ [{ id := st.nextTimerId, kind := kind, delay := delay }]
      nextTimerId := st.nextTimerId + 1 })

/-- Cancel the timer with the given handle (JavaScript
`clearTimeout` / `clearInterval`). -/
def clearTimeout (tid : Nat) (st : ModuleState) : ModuleState :=
  { st with timers := st.timers.filter (fun t => t.id != tid) }

/-- Append a `this.log(level, msg)` line. -/
def logLine (level msg : String) (st : ModuleState) : ModuleState :=
  { st with logs := st.logs ++ [(level, msg)] }

/-- Account for an external call's network requests and nonce-counter uses. -/
def applyExtern (e : ExternEffect) (st : ModuleState) : ModuleState :=
  { st with
      networkCalls := st.networkCalls + e.net
      ncCounter := st.ncCounter + e.nc }

/-- The exponential-backoff delay of `scheduleReconnect`
(main.js line 69): `Math.min(30000, 1000 * Math.pow(2, attempts))`. -/
def reconnectDelay (attempts : Nat) : Nat :=
  min 30000 (1000 * 2 ^ attempts)

/-- Model of `scheduleReconnect()` (main.js lines 65-73): clear any existing
reconnect timer, compute the delay from the current `reconnectAttempts`,
increment the counter, arm a one-shot reconnect timer, log. -/
def scheduleReconnect (st : ModuleState) : ModuleState :=
  let st1 :=
    match st.reconnectTimeout with
    | some tid => clearTimeout tid st
    | none => st
  let delay := reconnectDelay st1.reconnectAttempts
  let st2 := { st1 with reconnectAttempts := st1.reconnectAttempts + 1 }
  let p := setTimeout TimerKind.reconnect delay st2
  logLine "info" "Scheduling reconnect attempt" { p.2 with reconnectTimeout := some p.1 }

/-- Model of `stopHeartbeat()` (main.js lines 125-130): clear the interval
and null the field, when one is set. -/
def stopHeartbeat (st : ModuleState) : ModuleState :=
  match st.heartbeatInterval with
  | some tid => { clearTimeout tid st with heartbeatInterval := none }
  | none => st

/-- Model of `startHeartbeat()` (main.js lines 106-123): stop any existing
heartbeat, run the external `heartbeat.startHeartbeat(this)` kick-off
(effect `e`), arm the 30-second interval. -/
def startHeartbeat (e : ExternEffect) (st : ModuleState) : ModuleState :=
  let st1 := applyExtern e (stopHeartbeat st)
  let p := setTimeout TimerKind.heartbeat 30000 st1
  { p.2 with heartbeatInterval := some p.1 }

/-- Model of `authenticate()` (main.js lines 88-101).  Returns the updated
state and whether it completed without throwing: it throws when the config is
incomplete, when `auth.authenticate` (externally modelled outcome `o`,
effect `e`) throws, and when it returns a falsy result; both latter cases are
folded into `o = none`. -/
def authenticateStep (o : Option AuthResult) (e : ExternEffect)
    (st : ModuleState) : ModuleState × Bool :=
  if configComplete st.config = false then (st, false)
  else
    let st1 := applyExtern e st
    match o with
    | some r =>
        ({ st1 with
            authHeader := some r.authHeader
            csrfToken := r.csrfToken
            realm := some r.realm
            nonce := some r.nonce }, true)
    | none => (st1, false)

/-- Model of `matrix.fetchMatrixFeatures(this)` (external module, called from
`connect`): on success it replaces `matrixVariables` wholesale, on failure it
throws. -/
def fetchMatrixFeatures (o : Option (List (String × List String)))
    (e : ExternEffect) (st : ModuleState) : ModuleState × Bool :=
  let st1 := applyExtern e st
  match o with
  | some vars => ({ st1 with matrixVariables := some vars }, true)
  | none => (st1, false)

/-- Model of `this.updateActions()`: registers the action set with the host. -/
def updateActions (st : ModuleState) : ModuleState :=
  { st with actionsRegistered := true }

/-- Environment of one `connect()` call: outcomes and effects of the external
calls it makes (auth.authenticate, matrix.fetchMatrixFeatures,
heartbeat.startHeartbeat). -/
structure ConnectEnv where
  authOutcome : Option AuthResult
  authEffect : ExternEffect
  fetchOutcome : Option (List (String × List String))
  fetchEffect : ExternEffect
  hbEffect : ExternEffect
deriving DecidableEq, Repr

/-- The catch block of `connect()` (main.js lines 56-61), applied to the
state the throw left behind: log the error, status ConnectionFailure, set
`connectionFailed`, schedule a reconnect. -/
def connectCatch (st : ModuleState) : ModuleState :=
  scheduleReconnect
    { logLine "error" "Connection failed" st with
        status := InstanceStatus.ConnectionFailure
        connectionFailed := true }

/-- The tail of the try block of `connect()` (main.js lines 50-55) after a
successful feature fetch: debug log, register actions, start the heartbeat
(external kick-off effect `e`), status Ok, clear the failure flags. -/
def connectSuccess (e : ExternEffect) (st : ModuleState) : ModuleState :=
  let st4 := startHeartbeat e
    (updateActions (logLine "debug" "Variables after initialization" st))
  { st4 with
      status := InstanceStatus.Ok
      connectionFailed := false
      reconnectAttempts := 0 }

/-- Model of `connect()` (main.js lines 46-62): authenticate, fetch matrix
features, then run the success tail; any throw from authenticate or the
feature fetch lands in the catch block. -/
def connect (env : ConnectEnv) (st : ModuleState) : ModuleState :=
  match authenticateStep env.authOutcome env.authEffect st with
  | (st1, false) => connectCatch st1
  | (st1, true) =>
      match fetchMatrixFeatures env.fetchOutcome env.fetchEffect st1 with
      | (st2, false) => connectCatch st2
      | (st2, true) => connectSuccess env.hbEffect st2

/-- Model of `init(config)` (main.js lines 29-43): store config, status
Connecting, register feedbacks/variable definitions (no modelled effect);
when a required field is falsy log a warning, status BadConfig and return;
otherwise run `connect`. -/
def init (c : Config) (env : ConnectEnv) (st : ModuleState) : ModuleState :=
  let st1 := { st with config := c, status := InstanceStatus.Connecting }
  if configComplete c = false then
    { logLine "warn" "Module not configured yet" st1 with
        status := InstanceStatus.BadConfig }
  else
    connect env (logLine "info" "Initializing tieline gateway module" st1)

/-- Model of `configUpdated(config)` (main.js lines 75-86): store config;
when a required field is falsy log a warning, status BadConfig and return
(without touching the heartbeat); otherwise stop the heartbeat and run
`connect`. -/
def configUpdated (c : Config) (env : ConnectEnv) (st : ModuleState) :
    ModuleState :=
  let st1 := { st with config := c }
  if configComplete c = false then
    { logLine "warn" "Module not fully configured" st1 with
        status := InstanceStatus.BadConfig }
  else
    connect env (stopHeartbeat st1)

/-- Outcome of one `heartbeat.sendHeartbeat(this)` probe inside the interval
callback: a truthy result, a falsy result, or a thrown error. -/
inductive HBOutcome where
  | ok (r : HBResult)
  | okFalsy
  | err
deriving DecidableEq, Repr

/-- Model of the heartbeat interval callback (main.js lines 109-122): on a
truthy result refresh `authHeader`/`csrfToken`; on a throw log a warning, set
ConnectionFailure, stop the heartbeat and schedule a reconnect. -/
def heartbeatTick (o : HBOutcome) (e : ExternEffect) (st : ModuleState) :
    ModuleState :=
  let st1 := applyExtern e st
  match o with
  | HBOutcome.ok r =>
      { st1 with authHeader := some r.authHeader, csrfToken := r.csrfToken }
  | HBOutcome.okFalsy => st1
  | HBOutcome.err =>
      let st2 := logLine "warn" "Heartbeat failed" st1
      scheduleReconnect
        (stopHeartbeat { st2 with status := InstanceStatus.ConnectionFailure })

/-- Model of `destroy()` (main.js lines 132-137): stop the heartbeat and
clear any pending reconnect timer.  Faithful detail: the source clears the
timer but does not null `this.reconnectTimeout`. -/
def destroy (st : ModuleState) : ModuleState :=
  let st1 := stopHeartbeat st
  match st1.reconnectTimeout with
  | some tid => clearTimeout tid st1
  | none => st1

/-- Model of `digestAuth(...)` (main.js lines 159-161): delegates to
`auth.digestAuth` passing `this.ncCounter++`; returns the nc value the
request carries and the updated state. -/
def digestAuth (st : ModuleState) : Nat × ModuleState :=
  (st.ncCounter, { st with ncCounter := st.ncCounter + 1 })

/-- A sequence of `n` authenticated requests, each issued through
`digestAuth` on the shared state: the list of nc values carried, in order,
and the final state. -/
def issueRequests : Nat → ModuleState → List Nat × ModuleState
  | 0, st => ([], st)
  | n + 1, st =>
      let p := digestAuth st
      let q := issueRequests n p.2
      (p.1 :: q.1, q.2)

/-- A selectable choice handed to the host: `{ id: value, label: value }`. -/
structure Choice where
  id : String
  label : String
deriving DecidableEq, Repr

/-- Model of `getVariableChoices(type)` (main.js lines 167-186): read
`this.matrixVariables || {}`, and when the type is absent or maps to an
empty list warn and return `[]`, otherwise map each value to
`{ id: value, label: value }`.  Returns the choice list and the log lines
the call emits (the call does not mutate the instance). -/
def getVariableChoices (ty : String) (st : ModuleState) :
    List Choice × List (String × String) :=
  let vars := st.matrixVariables.getD []
  match vars.lookup ty with
  | some vals =>
      if vals.isEmpty then
        ([], [("warn", "not initialized or empty. Returning empty array.")])
      else
        (vals.map (fun v => { id := v, label := v }),
         [("debug", "Choices")])
  | none => ([], [("warn", "not initialized or empty. Returning empty array.")])

/-- The state-mutating operations of the instance, for reachability
statements. -/
inductive Op where
  | opInit (c : Config) (env : ConnectEnv)
  | opConfigUpdated (c : Config) (env : ConnectEnv)
  | opConnect (env : ConnectEnv)
  | opAuthenticate (o : Option AuthResult) (e : ExternEffect)
  | opScheduleReconnect
  | opStartHeartbeat (e : ExternEffect)
  | opStopHeartbeat
  | opHeartbeatTick (o : HBOutcome) (e : ExternEffect)
  | opDestroy
  | opDigestAuth
deriving DecidableEq, Repr

def applyOp : Op → ModuleState → ModuleState
  | Op.opInit c env, st => init c env st
  | Op.opConfigUpdated c env, st => configUpdated c env st
  | Op.opConnect env, st => connect env st
  | Op.opAuthenticate o e, st => (authenticateStep o e st).1
  | Op.opScheduleReconnect, st => scheduleReconnect st
  | Op.opStartHeartbeat e, st => startHeartbeat e st
  | Op.opStopHeartbeat, st => stopHeartbeat st
  | Op.opHeartbeatTick o e, st => heartbeatTick o e st
  | Op.opDestroy, st => destroy st
  | Op.opDigestAuth, st => (digestAuth st).2

def runOps (ops : List Op) (st : ModuleState) : ModuleState :=
  ops.foldl (fun s op => applyOp op s) st

/-- A state the instance can be in after any sequence of operations starting
from the constructor state. -/
def Reachable (st : ModuleState) : Prop :=
  ∃ ops : List Op, runOps ops initialState = st

/-- The live reconnect timers of a state. -/
def reconnectTimers (st : ModuleState) : List Timer :=
  st.timers.filter Timer.isReconnect

/-- The live heartbeat timers of a state. -/
def heartbeatTimers (st : ModuleState) : List Timer :=
  st.timers.filter Timer.isHeartbeat

/-- Timer bookkeeping invariant relating the live-timer list to the handle
fields: timer handles are below the allocation counter and duplicate-free,
every live reconnect (resp. heartbeat) timer is the one whose handle is
stored in `reconnectTimeout` (resp. `heartbeatInterval`), stored handles are
below the allocation counter, and the two fields never store the same
handle. -/
structure TimerInv (st : ModuleState) : Prop where
  fresh : ∀ t ∈ st.timers, t.id < st.nextTimerId
  recField : ∀ t ∈ st.timers, t.kind = TimerKind.reconnect →
    st.reconnectTimeout = some t.id
  hbField : ∀ t ∈ st.timers, t.kind = TimerKind.heartbeat →
    st.heartbeatInterval = some t.id
  recBound : ∀ a, st.reconnectTimeout = some a → a < st.nextTimerId
  hbBound : ∀ b, st.heartbeatInterval = some b → b < st.nextTimerId
  fieldsNe : ∀ a b, st.reconnectTimeout = some a →
    st.heartbeatInterval = some b → a ≠ b
  nodupIds : (st.timers.map Timer.id).Nodup

theorem isReconnect_iff (t : Timer) :
    t.isReconnect = true ↔ t.kind = TimerKind.reconnect := by
  cases t with
  | mk i k d => cases k <;> simp [Timer.isReconnect]

theorem isHeartbeat_iff (t : Timer) :
    t.isHeartbeat = true ↔ t.kind = TimerKind.heartbeat := by
  cases t with
  | mk i k d => cases k <;> simp [Timer.isHeartbeat]

theorem timerInv_initial : TimerInv initialState := by
  constructor <;> simp [initialState]

theorem nodup_ids_filter {l : List Timer} (p : Timer → Bool)
    (h : (l.map Timer.id).Nodup) : ((l.filter p).map Timer.id).Nodup :=
  h.sublist ((show List.Sublist (l.filter p) l from l.filter_sublist).map Timer.id)

theorem nodup_ids_append_fresh {l : List Timer} {t : Timer}
    (h : (l.map Timer.id).Nodup) (hf : ∀ u ∈ l, u.id < t.id) :
    ((l ++ [t]).map Timer.id).Nodup := by
  rw [List.map_append]
  refine h.append (by simp) ?_
  intro x hx hx'
  simp only [List.map_cons, List.map_nil, List.mem_singleton] at hx'
  simp only [List.mem_map] at hx
  obtain ⟨u, hu, rfl⟩ := hx
  have := hf u hu
  omega

theorem length_le_one_of_ids_eq {l : List Timer} (a : Nat)
    (hnd : (l.map Timer.id).Nodup) (h : ∀ t ∈ l, t.id = a) : l.length ≤ 1 := by
  match l with
  | [] => simp
  | [t] => simp
  | t :: u :: rest =>
    exfalso
    have ht := h t (by simp)
    have hu := h u (by simp)
    simp only [List.map_cons, List.nodup_cons, List.mem_cons, not_or] at hnd
    exact hnd.1.1 (by rw [ht, hu])

/-- Under the invariant, at most one reconnect timer is live. -/
theorem reconnectTimers_length_le_one {st : ModuleState} (h : TimerInv st) :
    (reconnectTimers st).length ≤ 1 := by
  cases hrt : st.reconnectTimeout with
  | none =>
    have hz : reconnectTimers st = [] := by
      refine List.filter_eq_nil_iff.mpr ?_
      intro t ht hk
      have := h.recField t ht ((isReconnect_iff t).mp hk)
      rw [hrt] at this
      exact Option.noConfusion this
    simp [hz]
  | some a =>
    refine length_le_one_of_ids_eq a (nodup_ids_filter _ h.nodupIds) ?_
    intro t ht
    have := h.recField t (List.mem_of_mem_filter ht)
      ((isReconnect_iff t).mp (List.of_mem_filter ht))
    rw [hrt] at this
    exact (Option.some.injEq _ _ ▸ this).symm

/-- Under the invariant, at most one heartbeat timer is live. -/
theorem heartbeatTimers_length_le_one {st : ModuleState} (h : TimerInv st) :
    (heartbeatTimers st).length ≤ 1 := by
  cases hrt : st.heartbeatInterval with
  | none =>
    have hz : heartbeatTimers st = [] := by
      refine List.filter_eq_nil_iff.mpr ?_
      intro t ht hk
      have := h.hbField t ht ((isHeartbeat_iff t).mp hk)
      rw [hrt] at this
      exact Option.noConfusion this
    simp [hz]
  | some b =>
    refine length_le_one_of_ids_eq b (nodup_ids_filter _ h.nodupIds) ?_
    intro t ht
    have := h.hbField t (List.mem_of_mem_filter ht)
      ((isHeartbeat_iff t).mp (List.of_mem_filter ht))
    rw [hrt] at this
    exact (Option.some.injEq _ _ ▸ this).symm

theorem timerInv_stopHeartbeat {st : ModuleState} (h : TimerInv st) :
    TimerInv (stopHeartbeat st) := by
  cases hb : st.heartbeatInterval with
  | none => simpa [stopHeartbeat, hb] using h
  | some b =>
    simp only [stopHeartbeat, hb, clearTimeout]
    refine ⟨?_, ?_, ?_, ?_, ?_, ?_, ?_⟩
    · intro t ht
      exact h.fresh t (List.mem_of_mem_filter ht)
    · intro t ht hk
      exact h.recField t (List.mem_of_mem_filter ht) hk
    · intro t ht hk
      exfalso
      have hmem := List.mem_filter.mp ht
      have hfld := h.hbField t hmem.1 hk
      rw [hb] at hfld
      have hid : t.id = b := (Option.some.injEq _ _).mp hfld.symm
      simp [hid] at hmem
    · intro a ha
      exact h.recBound a ha
    · intro b' hb'
      exact Option.noConfusion hb'
    · intro a b' _ hb'
      exact Option.noConfusion hb'
    · exact nodup_ids_filter _ h.nodupIds

theorem timerInv_scheduleReconnect {st : ModuleState} (h : TimerInv st) :
    TimerInv (scheduleReconnect st) := by
  cases hrt : st.reconnectTimeout with
  | none =>
    simp only [scheduleReconnect, hrt, clearTimeout, setTimeout, logLine]
    refine ⟨?_, ?_, ?_, ?_, ?_, ?_, ?_⟩
    · intro t ht
      show t.id < st.nextTimerId + 1
      rcases List.mem_append.mp ht with h1 | h2
      · have := h.fresh t h1; omega
      · simp only [List.mem_singleton] at h2
        subst h2; simp
    · intro t ht _
      rcases List.mem_append.mp ht with h1 | h2
      · have := h.recField t h1 (by assumption)
        rw [hrt] at this
        exact Option.noConfusion this
      · simp only [List.mem_singleton] at h2
        subst h2; rfl
    · intro t ht hk
      rcases List.mem_append.mp ht with h1 | h2
      · exact h.hbField t h1 hk
      · simp only [List.mem_singleton] at h2
        subst h2; exact TimerKind.noConfusion hk
    · intro a ha
      show a < st.nextTimerId + 1
      have : st.nextTimerId = a := (Option.some.injEq _ _).mp ha
      omega
    · intro b hb
      show b < st.nextTimerId + 1
      have : b < st.nextTimerId := h.hbBound b hb
      omega
    · intro a b ha hb
      have h1 : st.nextTimerId = a := (Option.some.injEq _ _).mp ha
      have h2 : b < st.nextTimerId := h.hbBound b hb
      omega
    · refine nodup_ids_append_fresh h.nodupIds ?_
      intro u hu
      exact h.fresh u hu
  | some a =>
    simp only [scheduleReconnect, hrt, clearTimeout, setTimeout, logLine]
    refine ⟨?_, ?_, ?_, ?_, ?_, ?_, ?_⟩
    · intro t ht
      show t.id < st.nextTimerId + 1
      rcases List.mem_append.mp ht with h1 | h2
      · have := h.fresh t (List.mem_of_mem_filter h1); omega
      · simp only [List.mem_singleton] at h2
        subst h2; simp
    · intro t ht hk
      rcases List.mem_append.mp ht with h1 | h2
      · exfalso
        have hmem := List.mem_filter.mp h1
        have hfld := h.recField t hmem.1 hk
        rw [hrt] at hfld
        have hid : t.id = a := (Option.some.injEq _ _).mp hfld.symm
        simp [hid] at hmem
      · simp only [List.mem_singleton] at h2
        subst h2; rfl
    · intro t ht hk
      rcases List.mem_append.mp ht with h1 | h2
      · exact h.hbField t (List.mem_of_mem_filter h1) hk
      · simp only [List.mem_singleton] at h2
        subst h2; exact TimerKind.noConfusion hk
    · intro a' ha
      show a' < st.nextTimerId + 1
      have : st.nextTimerId = a' := (Option.some.injEq _ _).mp ha
      omega
    · intro b hb
      show b < st.nextTimerId + 1
      have : b < st.nextTimerId := h.hbBound b hb
      omega
    · intro a' b ha hb
      have h1 : st.nextTimerId = a' := (Option.some.injEq _ _).mp ha
      have h2 : b < st.nextTimerId := h.hbBound b hb
      omega
    · refine nodup_ids_append_fresh (nodup_ids_filter _ h.nodupIds) ?_
      intro u hu
      exact h.fresh u (List.mem_of_mem_filter hu)

theorem timerInv_congr {st : ModuleState} (h : TimerInv st)
    {st' : ModuleState}
    (ht : st'.timers = st.timers) (hn : st'.nextTimerId = st.nextTimerId)
    (hr : st'.reconnectTimeout = st.reconnectTimeout)
    (hh : st'.heartbeatInterval = st.heartbeatInterval) : TimerInv st' := by
  refine ⟨?_, ?_, ?_, ?_, ?_, ?_, ?_⟩ <;> simp only [ht, hn, hr, hh]
  · exact h.fresh
  · exact h.recField
  · exact h.hbField
  · exact h.recBound
  · exact h.hbBound
  · exact h.fieldsNe
  · exact h.nodupIds

theorem timerInv_clearTimeout {st : ModuleState} (tid : Nat)
    (h : TimerInv st) : TimerInv (clearTimeout tid st) := by
  simp only [clearTimeout]
  refine ⟨?_, ?_, ?_, h.recBound, h.hbBound, h.fieldsNe,
    nodup_ids_filter _ h.nodupIds⟩
  · intro t ht
    exact h.fresh t (List.mem_of_mem_filter ht)
  · intro t ht hk
    exact h.recField t (List.mem_of_mem_filter ht) hk
  · intro t ht hk
    exact h.hbField t (List.mem_of_mem_filter ht) hk

theorem stopHeartbeat_hbIV (st : ModuleState) :
    (stopHeartbeat st).heartbeatInterval = none := by
  cases hb : st.heartbeatInterval <;> simp [stopHeartbeat, hb]

/-- A state whose heartbeat field is null has no live heartbeat timer, under
the invariant. -/
theorem heartbeatTimers_eq_nil_of_none {st : ModuleState} (h : TimerInv st)
    (hn : st.heartbeatInterval = none) : heartbeatTimers st = [] := by
  refine List.filter_eq_nil_iff.mpr ?_
  intro t ht hk
  have := h.hbField t ht ((isHeartbeat_iff t).mp hk)
  rw [hn] at this
  exact Option.noConfusion this

theorem reconnectTimers_eq_nil_of_none {st : ModuleState} (h : TimerInv st)
    (hn : st.reconnectTimeout = none) : reconnectTimers st = [] := by
  refine List.filter_eq_nil_iff.mpr ?_
  intro t ht hk
  have := h.recField t ht ((isReconnect_iff t).mp hk)
  rw [hn] at this
  exact Option.noConfusion this

theorem heartbeatTimers_stopHeartbeat {st : ModuleState} (h : TimerInv st) :
    heartbeatTimers (stopHeartbeat st) = [] :=
  heartbeatTimers_eq_nil_of_none (timerInv_stopHeartbeat h)
    (stopHeartbeat_hbIV st)

/-- Arming the heartbeat interval on a state whose heartbeat field is null
preserves the invariant. -/
theorem timerInv_armHeartbeat {st : ModuleState} (h : TimerInv st)
    (hnone : st.heartbeatInterval = none) :
    TimerInv
      { (setTimeout TimerKind.heartbeat 30000 st).2 with
          heartbeatInterval := some (setTimeout TimerKind.heartbeat 30000 st).1 } := by
  simp only [setTimeout]
  refine ⟨?_, ?_, ?_, ?_, ?_, ?_, ?_⟩
  · intro t ht
    show t.id < st.nextTimerId + 1
    rcases List.mem_append.mp ht with h1 | h2
    · have := h.fresh t h1; omega
    · simp only [List.mem_singleton] at h2
      subst h2; simp
  · intro t ht hk
    rcases List.mem_append.mp ht with h1 | h2
    · exact h.recField t h1 hk
    · simp only [List.mem_singleton] at h2
      subst h2; exact TimerKind.noConfusion hk
  · intro t ht _
    rcases List.mem_append.mp ht with h1 | h2
    · exfalso
      have := h.hbField t h1 (by assumption)
      rw [hnone] at this
      exact Option.noConfusion this
    · simp only [List.mem_singleton] at h2
      subst h2; rfl
  · intro a ha
    show a < st.nextTimerId + 1
    have : a < st.nextTimerId := h.recBound a ha
    omega
  · intro b hb
    show b < st.nextTimerId + 1
    have : st.nextTimerId = b := (Option.some.injEq _ _).mp hb
    omega
  · intro a b ha hb
    have h1 : a < st.nextTimerId := h.recBound a ha
    have h2 : st.nextTimerId = b := (Option.some.injEq _ _).mp hb
    omega
  · refine nodup_ids_append_fresh h.nodupIds ?_
    intro u hu
    exact h.fresh u hu

theorem timerInv_startHeartbeat {st : ModuleState} (e : ExternEffect)
    (h : TimerInv st) : TimerInv (startHeartbeat e st) := by
  have h1 : TimerInv (applyExtern e (stopHeartbeat st)) :=
    timerInv_congr (timerInv_stopHeartbeat h) rfl rfl rfl rfl
  have hb1 : (applyExtern e (stopHeartbeat st)).heartbeatInterval = none :=
    stopHeartbeat_hbIV st
  exact timerInv_armHeartbeat h1 hb1

theorem timerInv_authenticateStep {st : ModuleState} (o : Option AuthResult)
    (e : ExternEffect) (h : TimerInv st) :
    TimerInv (authenticateStep o e st).1 := by
  unfold authenticateStep
  split
  · exact h
  · cases o with
    | some r => exact timerInv_congr h rfl rfl rfl rfl
    | none => exact timerInv_congr h rfl rfl rfl rfl

theorem timerInv_fetchMatrixFeatures {st : ModuleState}
    (o : Option (List (String × List String))) (e : ExternEffect)
    (h : TimerInv st) : TimerInv (fetchMatrixFeatures o e st).1 := by
  unfold fetchMatrixFeatures
  cases o with
  | some vars => exact timerInv_congr h rfl rfl rfl rfl
  | none => exact timerInv_congr h rfl rfl rfl rfl

theorem timerInv_connectCatch {st : ModuleState} (h : TimerInv st) :
    TimerInv (connectCatch st) :=
  timerInv_scheduleReconnect (timerInv_congr h rfl rfl rfl rfl)

theorem timerInv_connectSuccess {st : ModuleState} (e : ExternEffect)
    (h : TimerInv st) : TimerInv (connectSuccess e st) := by
  have h3 : TimerInv
      (updateActions (logLine "debug" "Variables after initialization" st)) :=
    timerInv_congr h rfl rfl rfl rfl
  exact timerInv_congr (timerInv_startHeartbeat e h3) rfl rfl rfl rfl

theorem timerInv_connect {st : ModuleState} (env : ConnectEnv)
    (h : TimerInv st) : TimerInv (connect env st) := by
  rcases h1 : authenticateStep env.authOutcome env.authEffect st with ⟨st1, b1⟩
  have ha : TimerInv st1 := by
    have := timerInv_authenticateStep env.authOutcome env.authEffect h
    rw [h1] at this
    exact this
  cases b1 with
  | false =>
    simp only [connect, h1]
    exact timerInv_connectCatch ha
  | true =>
    rcases h2 : fetchMatrixFeatures env.fetchOutcome env.fetchEffect st1
      with ⟨st2, b2⟩
    have hf : TimerInv st2 := by
      have := timerInv_fetchMatrixFeatures env.fetchOutcome env.fetchEffect ha
      rw [h2] at this
      exact this
    cases b2 with
    | false =>
      simp only [connect, h1, h2]
      exact timerInv_connectCatch hf
    | true =>
      simp only [connect, h1, h2]
      exact timerInv_connectSuccess env.hbEffect hf

theorem timerInv_init {st : ModuleState} (c : Config) (env : ConnectEnv)
    (h : TimerInv st) : TimerInv (init c env st) := by
  unfold init
  split
  · exact timerInv_congr h rfl rfl rfl rfl
  · exact timerInv_connect env (timerInv_congr h rfl rfl rfl rfl)

theorem timerInv_configUpdated {st : ModuleState} (c : Config)
    (env : ConnectEnv) (h : TimerInv st) :
    TimerInv (configUpdated c env st) := by
  unfold configUpdated
  split
  · exact timerInv_congr h rfl rfl rfl rfl
  · exact timerInv_connect env
      (timerInv_stopHeartbeat (timerInv_congr h rfl rfl rfl rfl))

theorem timerInv_heartbeatTick {st : ModuleState} (o : HBOutcome)
    (e : ExternEffect) (h : TimerInv st) : TimerInv (heartbeatTick o e st) := by
  unfold heartbeatTick
  cases o with
  | ok r => exact timerInv_congr h rfl rfl rfl rfl
  | okFalsy => exact timerInv_congr h rfl rfl rfl rfl
  | err =>
    exact timerInv_scheduleReconnect
      (timerInv_stopHeartbeat (timerInv_congr h rfl rfl rfl rfl))

theorem timerInv_destroy {st : ModuleState} (h : TimerInv st) :
    TimerInv (destroy st) := by
  have h1 := timerInv_stopHeartbeat h
  cases hrt : (stopHeartbeat st).reconnectTimeout with
  | none => simpa [destroy, hrt] using h1
  | some tid =>
    simp only [destroy, hrt]
    exact timerInv_clearTimeout tid h1

theorem timerInv_applyOp (op : Op) {st : ModuleState} (h : TimerInv st) :
    TimerInv (applyOp op st) := by
  cases op with
  | opInit c env => exact timerInv_init c env h
  | opConfigUpdated c env => exact timerInv_configUpdated c env h
  | opConnect env => exact timerInv_connect env h
  | opAuthenticate o e => exact timerInv_authenticateStep o e h
  | opScheduleReconnect => exact timerInv_scheduleReconnect h
  | opStartHeartbeat e => exact timerInv_startHeartbeat e h
  | opStopHeartbeat => exact timerInv_stopHeartbeat h
  | opHeartbeatTick o e => exact timerInv_heartbeatTick o e h
  | opDestroy => exact timerInv_destroy h
  | opDigestAuth => exact timerInv_congr h rfl rfl rfl rfl

theorem timerInv_runOps (ops : List Op) {st : ModuleState} (h : TimerInv st) :
    TimerInv (runOps ops st) := by
  induction ops generalizing st with
  | nil => exact h
  | cons op rest ih =>
    show TimerInv (runOps rest (applyOp op st))
    exact ih (timerInv_applyOp op h)

/-- Every reachable state satisfies the timer bookkeeping invariant. -/
theorem timerInv_reachable {st : ModuleState} (h : Reachable st) :
    TimerInv st := by
  obtain ⟨ops, rfl⟩ := h
  exact timerInv_runOps ops timerInv_initial

/-- After `scheduleReconnect` exactly the newly armed timer is the live
reconnect timer. -/
theorem reconnectTimers_scheduleReconnect {st : ModuleState}
    (h : TimerInv st) :
    reconnectTimers (scheduleReconnect st) =
      [{ id := st.nextTimerId, kind := TimerKind.reconnect,
         delay := reconnectDelay st.reconnectAttempts }] := by
  cases hrt : st.reconnectTimeout with
  | none =>
    have h1 : st.timers.filter Timer.isReconnect = [] :=
      reconnectTimers_eq_nil_of_none h hrt
    simp only [scheduleReconnect, hrt, setTimeout, logLine, reconnectTimers]
    rw [List.filter_append, h1]
    simp [Timer.isReconnect]
  | some a =>
    have h1 : (st.timers.filter (fun t => t.id != a)).filter Timer.isReconnect
        = [] := by
      refine List.filter_eq_nil_iff.mpr ?_
      intro t ht hk
      have hmem := List.mem_filter.mp ht
      have hfld := h.recField t hmem.1 ((isReconnect_iff t).mp hk)
      rw [hrt] at hfld
      have hid : t.id = a := (Option.some.injEq _ _).mp hfld.symm
      simp [hid] at hmem
    simp only [scheduleReconnect, hrt, clearTimeout, setTimeout, logLine,
      reconnectTimers]
    rw [List.filter_append, h1]
    simp [Timer.isReconnect]

/-- After `startHeartbeat` exactly the newly armed interval is the live
heartbeat timer. -/
theorem heartbeatTimers_startHeartbeat {st : ModuleState} (e : ExternEffect)
    (h : TimerInv st) :
    heartbeatTimers (startHeartbeat e st) =
      [{ id := st.nextTimerId, kind := TimerKind.heartbeat, delay := 30000 }] := by
  have h1 : (stopHeartbeat st).timers.filter Timer.isHeartbeat = [] :=
    heartbeatTimers_stopHeartbeat h
  have hn : (stopHeartbeat st).nextTimerId = st.nextTimerId := by
    cases hb : st.heartbeatInterval <;> simp [stopHeartbeat, hb, clearTimeout]
  simp only [startHeartbeat, applyExtern, setTimeout, heartbeatTimers]
  rw [List.filter_append]
  show (stopHeartbeat st).timers.filter Timer.isHeartbeat ++ _ = _
  rw [h1, hn]
  simp [Timer.isHeartbeat]

/-- Under the invariant, `destroy` leaves no live timer at all. -/
theorem destroy_timers_nil {st : ModuleState} (h : TimerInv st) :
    (destroy st).timers = [] := by
  have h1 := timerInv_stopHeartbeat h
  have hbnone := stopHeartbeat_hbIV st
  cases hrt : (stopHeartbeat st).reconnectTimeout with
  | none =>
    simp only [destroy, hrt]
    refine List.eq_nil_iff_forall_not_mem.mpr ?_
    intro t ht
    cases hk : t.kind with
    | reconnect =>
      have := h1.recField t ht hk
      rw [hrt] at this
      exact Option.noConfusion this
    | heartbeat =>
      have := h1.hbField t ht hk
      rw [hbnone] at this
      exact Option.noConfusion this
  | some a =>
    simp only [destroy, hrt, clearTimeout]
    refine List.filter_eq_nil_iff.mpr ?_
    intro t ht hne
    cases hk : t.kind with
    | reconnect =>
      have hfld := h1.recField t ht hk
      rw [hrt] at hfld
      have hid : t.id = a := (Option.some.injEq _ _).mp hfld.symm
      simp [hid] at hne
    | heartbeat =>
      have := h1.hbField t ht hk
      rw [hbnone] at this
      exact Option.noConfusion this

theorem issueRequests_spec (n : Nat) :
    ∀ st : ModuleState,
      (issueRequests n st).1 = (List.range n).map (fun i => st.ncCounter + i) ∧
      (issueRequests n st).2.ncCounter = st.ncCounter + n := by
  induction n with
  | zero => intro st; simp [issueRequests]
  | succ n ih =>
    intro st
    obtain ⟨h1, h2⟩ := ih { st with ncCounter := st.ncCounter + 1 }
    constructor
    · show st.ncCounter ::
        (issueRequests n { st with ncCounter := st.ncCounter + 1 }).1 = _
      rw [h1, List.range_succ_eq_map, List.map_cons, List.map_map]
      refine congrArg₂ _ (by omega) ?_
      refine List.map_congr_left ?_
      intro a _
      simp only [Function.comp]
      omega
    · show (issueRequests n { st with ncCounter := st.ncCounter + 1 }).2.ncCounter = _
      rw [h2]
      show st.ncCounter + 1 + n = st.ncCounter + (n + 1)
      omega

theorem chain_map_range (n : Nat) :
    ∀ c : Nat,
      List.Chain' (fun a b => b = a + 1)
        ((List.range n).map (fun i => c + i)) := by
  induction n with
  | zero => intro c; simp
  | succ n ih =>
    intro c
    rw [List.range_succ_eq_map, List.map_cons, List.map_map]
    have hmap : (List.range n).map ((fun i => c + i) ∘ Nat.succ) =
        (List.range n).map (fun i => (c + 1) + i) := by
      refine List.map_congr_left ?_
      intro a _
      simp only [Function.comp]
      omega
    rw [hmap]
    refine List.chain'_cons'.mpr ⟨?_, ih (c + 1)⟩
    intro y hy
    cases n with
    | zero => simp at hy
    | succ m =>
      rw [List.range_succ_eq_map, List.map_cons] at hy
      simp only [List.head?_cons, Option.mem_def, Option.some.injEq] at hy
      omega

theorem ncCounter_stopHeartbeat (st : ModuleState) :
    (stopHeartbeat st).ncCounter = st.ncCounter := by
  cases hb : st.heartbeatInterval <;> simp [stopHeartbeat, hb, clearTimeout]

theorem ncCounter_scheduleReconnect (st : ModuleState) :
    (scheduleReconnect st).ncCounter = st.ncCounter := by
  cases hrt : st.reconnectTimeout <;>
    simp [scheduleReconnect, hrt, clearTimeout, setTimeout, logLine]

theorem ncCounter_startHeartbeat (e : ExternEffect) (st : ModuleState) :
    (startHeartbeat e st).ncCounter = st.ncCounter + e.nc := by
  show (applyExtern e (stopHeartbeat st)).ncCounter = _
  show (stopHeartbeat st).ncCounter + e.nc = _
  rw [ncCounter_stopHeartbeat]

theorem ncCounter_authenticateStep (o : Option AuthResult) (e : ExternEffect)
    (st : ModuleState) :
    st.ncCounter ≤ (authenticateStep o e st).1.ncCounter := by
  unfold authenticateStep
  split
  · exact Nat.le_refl _
  · cases o with
    | some r =>
      show st.ncCounter ≤ st.ncCounter + e.nc
      omega
    | none =>
      show st.ncCounter ≤ st.ncCounter + e.nc
      omega

theorem ncCounter_fetchMatrixFeatures
    (o : Option (List (String × List String))) (e : ExternEffect)
    (st : ModuleState) :
    (fetchMatrixFeatures o e st).1.ncCounter = st.ncCounter + e.nc := by
  cases o <;> rfl

theorem ncCounter_connectCatch (st : ModuleState) :
    (connectCatch st).ncCounter = st.ncCounter := by
  unfold connectCatch
  rw [ncCounter_scheduleReconnect]
  rfl

theorem ncCounter_connectSuccess (e : ExternEffect) (st : ModuleState) :
    (connectSuccess e st).ncCounter = st.ncCounter + e.nc := by
  show (startHeartbeat e
    (updateActions (logLine "debug" "Variables after initialization" st))).ncCounter = _
  rw [ncCounter_startHeartbeat]
  rfl

theorem ncCounter_connect (env : ConnectEnv) (st : ModuleState) :
    st.ncCounter ≤ (connect env st).ncCounter := by
  rcases h1 : authenticateStep env.authOutcome env.authEffect st with ⟨st1, b1⟩
  have ha : st.ncCounter ≤ st1.ncCounter := by
    have := ncCounter_authenticateStep env.authOutcome env.authEffect st
    rw [h1] at this
    exact this
  cases b1 with
  | false =>
    simp only [connect, h1]
    rw [ncCounter_connectCatch]
    exact ha
  | true =>
    rcases h2 : fetchMatrixFeatures env.fetchOutcome env.fetchEffect st1
      with ⟨st2, b2⟩
    have hf : st2.ncCounter = st1.ncCounter + env.fetchEffect.nc := by
      have := ncCounter_fetchMatrixFeatures env.fetchOutcome env.fetchEffect st1
      rw [h2] at this
      exact this
    cases b2 with
    | false =>
      simp only [connect, h1, h2]
      rw [ncCounter_connectCatch]
      omega
    | true =>
      simp only [connect, h1, h2]
      rw [ncCounter_connectSuccess]
      omega

theorem ncCounter_init (c : Config) (env : ConnectEnv) (st : ModuleState) :
    st.ncCounter ≤ (init c env st).ncCounter := by
  unfold init
  split
  · exact Nat.le_refl _
  · exact ncCounter_connect env
      (logLine "info" "Initializing tieline gateway module"
        { st with config := c, status := InstanceStatus.Connecting })

theorem ncCounter_configUpdated (c : Config) (env : ConnectEnv)
    (st : ModuleState) :
    st.ncCounter ≤ (configUpdated c env st).ncCounter := by
  unfold configUpdated
  split
  · exact Nat.le_refl _
  · have h1 := ncCounter_connect env (stopHeartbeat { st with config := c })
    rw [ncCounter_stopHeartbeat] at h1
    exact h1

theorem ncCounter_heartbeatTick (o : HBOutcome) (e : ExternEffect)
    (st : ModuleState) :
    st.ncCounter ≤ (heartbeatTick o e st).ncCounter := by
  unfold heartbeatTick
  cases o with
  | ok r =>
    show st.ncCounter ≤ st.ncCounter + e.nc
    omega
  | okFalsy =>
    show st.ncCounter ≤ st.ncCounter + e.nc
    omega
  | err =>
    rw [ncCounter_scheduleReconnect, ncCounter_stopHeartbeat]
    show st.ncCounter ≤ st.ncCounter + e.nc
    omega

theorem ncCounter_destroy (st : ModuleState) :
    (destroy st).ncCounter = st.ncCounter := by
  cases hrt : (stopHeartbeat st).reconnectTimeout with
  | none =>
    simp only [destroy, hrt]
    exact ncCounter_stopHeartbeat st
  | some tid =>
    simp only [destroy, hrt, clearTimeout]
    exact ncCounter_stopHeartbeat st

theorem scheduleReconnect_fields (st : ModuleState) :
    (scheduleReconnect st).status = st.status ∧
    (scheduleReconnect st).connectionFailed = st.connectionFailed ∧
    (scheduleReconnect st).actionsRegistered = st.actionsRegistered ∧
    (scheduleReconnect st).heartbeatInterval = st.heartbeatInterval ∧
    (scheduleReconnect st).networkCalls = st.networkCalls ∧
    (scheduleReconnect st).reconnectAttempts = st.reconnectAttempts + 1 := by
  cases hrt : st.reconnectTimeout <;>
    simp [scheduleReconnect, hrt, clearTimeout, setTimeout, logLine]

/-- The timer armed by `scheduleReconnect`: its handle is the one stored in
`reconnectTimeout`, it is a reconnect timer, and its delay is computed from
the pre-increment `reconnectAttempts`. -/
theorem armed_scheduleReconnect (st : ModuleState) :
    ∃ t ∈ (scheduleReconnect st).timers,
      (scheduleReconnect st).reconnectTimeout = some t.id ∧
      t.kind = TimerKind.reconnect ∧
      t.delay = reconnectDelay st.reconnectAttempts := by
  cases hrt : st.reconnectTimeout with
  | none =>
    refine ⟨{ id := st.nextTimerId, kind := TimerKind.reconnect,
              delay := reconnectDelay st.reconnectAttempts }, ?_, ?_, rfl, rfl⟩ <;>
      simp [scheduleReconnect, hrt, clearTimeout, setTimeout, logLine]
  | some a =>
    refine ⟨{ id := st.nextTimerId, kind := TimerKind.reconnect,
              delay := reconnectDelay st.reconnectAttempts }, ?_, ?_, rfl, rfl⟩ <;>
      simp [scheduleReconnect, hrt, clearTimeout, setTimeout, logLine]

theorem stopHeartbeat_fields (st : ModuleState) :
    (stopHeartbeat st).status = st.status ∧
    (stopHeartbeat st).connectionFailed = st.connectionFailed ∧
    (stopHeartbeat st).actionsRegistered = st.actionsRegistered ∧
    (stopHeartbeat st).reconnectAttempts = st.reconnectAttempts ∧
    (stopHeartbeat st).reconnectTimeout = st.reconnectTimeout ∧
    (stopHeartbeat st).networkCalls = st.networkCalls := by
  cases hb : st.heartbeatInterval <;> simp [stopHeartbeat, hb, clearTimeout]

theorem startHeartbeat_fields (e : ExternEffect) (st : ModuleState) :
    (startHeartbeat e st).status = st.status ∧
    (startHeartbeat e st).connectionFailed = st.connectionFailed ∧
    (startHeartbeat e st).actionsRegistered = st.actionsRegistered ∧
    (startHeartbeat e st).reconnectAttempts = st.reconnectAttempts ∧
    (startHeartbeat e st).reconnectTimeout = st.reconnectTimeout ∧
    (startHeartbeat e st).networkCalls = st.networkCalls + e.net := by
  obtain ⟨h1, h2, h3, h4, h5, h6⟩ := stopHeartbeat_fields st
  refine ⟨?_, ?_, ?_, ?_, ?_, ?_⟩
  · show (stopHeartbeat st).status = st.status
    exact h1
  · show (stopHeartbeat st).connectionFailed = st.connectionFailed
    exact h2
  · show (stopHeartbeat st).actionsRegistered = st.actionsRegistered
    exact h3
  · show (stopHeartbeat st).reconnectAttempts = st.reconnectAttempts
    exact h4
  · show (stopHeartbeat st).reconnectTimeout = st.reconnectTimeout
    exact h5
  · show (stopHeartbeat st).networkCalls + e.net = st.networkCalls + e.net
    rw [h6]

theorem connectCatch_fields (st : ModuleState) :
    (connectCatch st).status = InstanceStatus.ConnectionFailure ∧
    (connectCatch st).connectionFailed = true ∧
    (connectCatch st).actionsRegistered = st.actionsRegistered ∧
    (connectCatch st).reconnectAttempts = st.reconnectAttempts + 1 := by
  obtain ⟨h1, h2, h3, _, _, h6⟩ := scheduleReconnect_fields
    { logLine "error" "Connection failed" st with
        status := InstanceStatus.ConnectionFailure, connectionFailed := true }
  exact ⟨h1.trans rfl, h2.trans rfl, h3.trans rfl, h6.trans rfl⟩

theorem connectCatch_armed (st : ModuleState) :
    ∃ t ∈ (connectCatch st).timers,
      (connectCatch st).reconnectTimeout = some t.id ∧
      t.kind = TimerKind.reconnect := by
  obtain ⟨t, hm, hf, hk, _⟩ := armed_scheduleReconnect
    { logLine "error" "Connection failed" st with
        status := InstanceStatus.ConnectionFailure, connectionFailed := true }
  exact ⟨t, hm, hf, hk⟩

theorem connectSuccess_fields (e : ExternEffect) (st : ModuleState) :
    (connectSuccess e st).status = InstanceStatus.Ok ∧
    (connectSuccess e st).connectionFailed = false ∧
    (connectSuccess e st).reconnectAttempts = 0 ∧
    (connectSuccess e st).actionsRegistered = true := by
  refine ⟨rfl, rfl, rfl, ?_⟩
  have h := (startHeartbeat_fields e (updateActions
    (logLine "debug" "Variables after initialization" st))).2.2.1
  exact h.trans rfl

theorem authenticateStep_snd_iff (o : Option AuthResult) (e : ExternEffect)
    (st : ModuleState) :
    (authenticateStep o e st).2 = true ↔
      (configComplete st.config = true ∧ o.isSome = true) := by
  unfold authenticateStep
  split
  · next hc => simp [hc]
  · next hc =>
    have hc' : configComplete st.config = true := by
      cases h : configComplete st.config
      · exact absurd h hc
      · rfl
    cases o <;> simp [hc']

theorem authenticateStep_fst_fields (o : Option AuthResult) (e : ExternEffect)
    (st : ModuleState) :
    (authenticateStep o e st).1.reconnectAttempts = st.reconnectAttempts ∧
    (authenticateStep o e st).1.actionsRegistered = st.actionsRegistered ∧
    (authenticateStep o e st).1.config = st.config := by
  unfold authenticateStep
  split
  · exact ⟨rfl, rfl, rfl⟩
  · cases o <;> exact ⟨rfl, rfl, rfl⟩

theorem fetchMatrixFeatures_snd (o : Option (List (String × List String)))
    (e : ExternEffect) (st : ModuleState) :
    (fetchMatrixFeatures o e st).2 = o.isSome := by
  cases o <;> rfl

theorem fetchMatrixFeatures_fst_fields
    (o : Option (List (String × List String))) (e : ExternEffect)
    (st : ModuleState) :
    (fetchMatrixFeatures o e st).1.reconnectAttempts = st.reconnectAttempts ∧
    (fetchMatrixFeatures o e st).1.actionsRegistered = st.actionsRegistered := by
  cases o <;> exact ⟨rfl, rfl⟩

theorem stopHeartbeat_config (st : ModuleState) :
    (stopHeartbeat st).config = st.config := by
  cases hb : st.heartbeatInterval <;> simp [stopHeartbeat, hb, clearTimeout]

theorem reconnectAttempts_destroy (st : ModuleState) :
    (destroy st).reconnectAttempts = st.reconnectAttempts := by
  have hs := (stopHeartbeat_fields st).2.2.2.1
  cases hrt : (stopHeartbeat st).reconnectTimeout with
  | none => simpa [destroy, hrt] using hs
  | some tid =>
    simp only [destroy, hrt, clearTimeout]
    exact hs

/-- Success path of `connect`: complete config and both external calls
succeeding give status Ok, cleared failure flag, `reconnectAttempts = 0`,
and registered actions. -/
theorem connect_success (env : ConnectEnv) (st : ModuleState)
    (hc : configComplete st.config = true)
    (hao : env.authOutcome.isSome = true)
    (hfo : env.fetchOutcome.isSome = true) :
    (connect env st).status = InstanceStatus.Ok ∧
    (connect env st).connectionFailed = false ∧
    (connect env st).reconnectAttempts = 0 ∧
    (connect env st).actionsRegistered = true := by
  rcases h1 : authenticateStep env.authOutcome env.authEffect st with ⟨st1, b1⟩
  have hb1 : b1 = true := by
    have := (authenticateStep_snd_iff env.authOutcome env.authEffect st).mpr
      ⟨hc, hao⟩
    rw [h1] at this
    exact this
  subst hb1
  rcases h2 : fetchMatrixFeatures env.fetchOutcome env.fetchEffect st1
    with ⟨st2, b2⟩
  have hb2 : b2 = true := by
    have := fetchMatrixFeatures_snd env.fetchOutcome env.fetchEffect st1
    rw [h2, hfo] at this
    exact this
  subst hb2
  simp only [connect, h1, h2]
  exact connectSuccess_fields env.hbEffect st2

/-- Failure path of `connect`: an incomplete config or a throw from
authentication or feature discovery gives status ConnectionFailure, the
failure flag set, no action registration, and an armed reconnect timer with
an incremented attempt counter. -/
theorem connect_failure (env : ConnectEnv) (st : ModuleState)
    (h : configComplete st.config = false ∨ env.authOutcome = none ∨
      env.fetchOutcome = none) :
    (connect env st).status = InstanceStatus.ConnectionFailure ∧
    (connect env st).connectionFailed = true ∧
    (connect env st).actionsRegistered = st.actionsRegistered ∧
    (connect env st).reconnectAttempts = st.reconnectAttempts + 1 ∧
    ∃ t ∈ (connect env st).timers,
      (connect env st).reconnectTimeout = some t.id ∧
      t.kind = TimerKind.reconnect := by
  rcases h1 : authenticateStep env.authOutcome env.authEffect st with ⟨st1, b1⟩
  have hst1 := authenticateStep_fst_fields env.authOutcome env.authEffect st
  rw [h1] at hst1
  obtain ⟨hst1a, hst1b, _⟩ := hst1
  cases b1 with
  | false =>
    simp only [connect, h1]
    obtain ⟨k1, k2, k3, k4⟩ := connectCatch_fields st1
    exact ⟨k1, k2, k3.trans hst1b, by rw [k4, hst1a], connectCatch_armed st1⟩
  | true =>
    have hiff := (authenticateStep_snd_iff env.authOutcome env.authEffect st).mp
      (by rw [h1])
    obtain ⟨hc, hao⟩ := hiff
    have hfo : env.fetchOutcome = none := by
      rcases h with h | h | h
      · rw [hc] at h
        exact Bool.noConfusion h
      · rw [h] at hao
        exact Bool.noConfusion hao
      · exact h
    rcases h2 : fetchMatrixFeatures env.fetchOutcome env.fetchEffect st1
      with ⟨st2, b2⟩
    have hst2 := fetchMatrixFeatures_fst_fields env.fetchOutcome
      env.fetchEffect st1
    rw [h2] at hst2
    obtain ⟨hst2a, hst2b⟩ := hst2
    have hb2 : b2 = false := by
      have := fetchMatrixFeatures_snd env.fetchOutcome env.fetchEffect st1
      rw [h2, hfo] at this
      exact this
    subst hb2
    simp only [connect, h1, h2]
    obtain ⟨k1, k2, k3, k4⟩ := connectCatch_fields st2
    refine ⟨k1, k2, k3.trans (hst2b.trans hst1b), ?_, connectCatch_armed st2⟩
    rw [k4, hst2a, hst1a]

/-- Either `connect` took the full success path (resetting the attempt
counter, which requires a complete config and both external successes), or
it incremented the attempt counter. -/
theorem connect_attempts (env : ConnectEnv) (st : ModuleState) :
    ((connect env st).reconnectAttempts = 0 ∧
      configComplete st.config = true ∧ env.authOutcome.isSome = true ∧
      env.fetchOutcome.isSome = true) ∨
    (connect env st).reconnectAttempts = st.reconnectAttempts + 1 := by
  rcases h1 : authenticateStep env.authOutcome env.authEffect st with ⟨st1, b1⟩
  have hst1 := authenticateStep_fst_fields env.authOutcome env.authEffect st
  rw [h1] at hst1
  obtain ⟨hst1a, _, _⟩ := hst1
  cases b1 with
  | false =>
    right
    simp only [connect, h1]
    rw [(connectCatch_fields st1).2.2.2, hst1a]
  | true =>
    have hiff := (authenticateStep_snd_iff env.authOutcome env.authEffect st).mp
      (by rw [h1])
    obtain ⟨hc, hao⟩ := hiff
    rcases h2 : fetchMatrixFeatures env.fetchOutcome env.fetchEffect st1
      with ⟨st2, b2⟩
    have hst2a := (fetchMatrixFeatures_fst_fields env.fetchOutcome
      env.fetchEffect st1).1
    rw [h2] at hst2a
    cases b2 with
    | false =>
      right
      simp only [connect, h1, h2]
      rw [(connectCatch_fields st2).2.2.2, hst2a, hst1a]
    | true =>
      left
      have hfo : env.fetchOutcome.isSome = true := by
        have := fetchMatrixFeatures_snd env.fetchOutcome env.fetchEffect st1
        rw [h2] at this
        exact this.symm
      refine ⟨?_, hc, hao, hfo⟩
      simp only [connect, h1, h2]
      exact (connectSuccess_fields env.hbEffect st2).2.2.1

/-- Whether an operation runs the full connect sequence with both external
calls succeeding (the only way `reconnectAttempts` can return to 0). -/
def opConnectSuccess : Op → Bool
  | Op.opConnect env => env.authOutcome.isSome && env.fetchOutcome.isSome
  | Op.opInit c env =>
      configComplete c && (env.authOutcome.isSome && env.fetchOutcome.isSome)
  | Op.opConfigUpdated c env =>
      configComplete c && (env.authOutcome.isSome && env.fetchOutcome.isSome)
  | _ => false

/-- Across all modelled operations, a nonzero `reconnectAttempts` returns to
0 only through an operation that runs the full connect sequence with both
external calls succeeding. -/
theorem attempts_reset_only_by_successful_connect (op : Op)
    (st : ModuleState) (hne : st.reconnectAttempts ≠ 0)
    (h0 : (applyOp op st).reconnectAttempts = 0) :
    opConnectSuccess op = true := by
  cases op with
  | opInit c env =>
    simp only [applyOp, init] at h0
    split at h0
    · exact absurd h0 hne
    · next hcc =>
      have hc : configComplete c = true := by
        cases hh : configComplete c
        · exact absurd hh hcc
        · rfl
      rcases connect_attempts env (logLine "info"
          "Initializing tieline gateway module"
          { st with config := c, status := InstanceStatus.Connecting })
        with ⟨_, _, hao, hfo⟩ | hinc
      · simp [opConnectSuccess, hc, hao, hfo]
      · rw [hinc] at h0
        exact absurd h0 (Nat.succ_ne_zero _)
  | opConfigUpdated c env =>
    simp only [applyOp, configUpdated] at h0
    split at h0
    · exact absurd h0 hne
    · next hcc =>
      have hc : configComplete c = true := by
        cases hh : configComplete c
        · exact absurd hh hcc
        · rfl
      rcases connect_attempts env (stopHeartbeat { st with config := c })
        with ⟨_, _, hao, hfo⟩ | hinc
      · simp [opConnectSuccess, hc, hao, hfo]
      · rw [hinc, (stopHeartbeat_fields { st with config := c }).2.2.2.1] at h0
        exact absurd h0 (Nat.succ_ne_zero _)
  | opConnect env =>
    rcases connect_attempts env st with ⟨_, _, hao, hfo⟩ | hinc
    · simp [opConnectSuccess, hao, hfo]
    · rw [show applyOp (Op.opConnect env) st = connect env st from rfl,
        hinc] at h0
      exact absurd h0 (Nat.succ_ne_zero _)
  | opAuthenticate o e =>
    have := (authenticateStep_fst_fields o e st).1
    rw [show applyOp (Op.opAuthenticate o e) st = (authenticateStep o e st).1
      from rfl, this] at h0
    exact absurd h0 hne
  | opScheduleReconnect =>
    have := (scheduleReconnect_fields st).2.2.2.2.2
    rw [show applyOp Op.opScheduleReconnect st = scheduleReconnect st from rfl,
      this] at h0
    exact absurd h0 (Nat.succ_ne_zero _)
  | opStartHeartbeat e =>
    have := (startHeartbeat_fields e st).2.2.2.1
    rw [show applyOp (Op.opStartHeartbeat e) st = startHeartbeat e st from rfl,
      this] at h0
    exact absurd h0 hne
  | opStopHeartbeat =>
    have := (stopHeartbeat_fields st).2.2.2.1
    rw [show applyOp Op.opStopHeartbeat st = stopHeartbeat st from rfl,
      this] at h0
    exact absurd h0 hne
  | opHeartbeatTick o e =>
    cases o with
    | ok r => exact absurd h0 hne
    | okFalsy => exact absurd h0 hne
    | err =>
      have h1 := (scheduleReconnect_fields (stopHeartbeat
        { logLine "warn" "Heartbeat failed" (applyExtern e st) with
            status := InstanceStatus.ConnectionFailure })).2.2.2.2.2
      have h2 := (stopHeartbeat_fields
        { logLine "warn" "Heartbeat failed" (applyExtern e st) with
            status := InstanceStatus.ConnectionFailure }).2.2.2.1
      rw [show applyOp (Op.opHeartbeatTick HBOutcome.err e) st =
        scheduleReconnect (stopHeartbeat
          { logLine "warn" "Heartbeat failed" (applyExtern e st) with
              status := InstanceStatus.ConnectionFailure }) from rfl,
        h1, h2] at h0
      exact absurd h0 (Nat.succ_ne_zero _)
  | opDestroy =>
    rw [show applyOp Op.opDestroy st = destroy st from rfl,
      reconnectAttempts_destroy st] at h0
    exact absurd h0 hne
  | opDigestAuth => exact absurd h0 hne

/-- A complete configuration used in concrete instantiations. -/
def goodConfig : Config :=
  { host := some "192.168.0.10", username := some "admin",
    password := some "pw" }

/-- A connect environment in which both external calls throw. -/
def emptyEnv : ConnectEnv :=
  { authOutcome := none,
    authEffect := { net := 1, nc := 0 },
    fetchOutcome := none,
    fetchEffect := { net := 0, nc := 0 },
    hbEffect := { net := 0, nc := 0 } }

/-- A connect environment in which both external calls succeed. -/
def okEnv : ConnectEnv :=
  { authOutcome := some { authHeader := "Digest abc",
                          csrfToken := some "tok",
                          realm := "gateway", nonce := "n1" },
    authEffect := { net := 2, nc := 1 },
    fetchOutcome := some [("sources", ["A", "B"]), ("destinations", ["D"])],
    fetchEffect := { net := 1, nc := 1 },
    hbEffect := { net := 1, nc := 1 } }

/-- C1: for every value of `reconnectAttempts`, `scheduleReconnect()` arms
its one-shot timer with delay `min(30000, 1000 * 2 ^ reconnectAttempts)`
milliseconds computed from the value before the call increments it; for
attempts 0 through 6 the delays are exactly
1000, 2000, 4000, 8000, 16000, 30000, 30000. -/
theorem c1_reconnect_backoff_delay (st : ModuleState) :
    (scheduleReconnect st).reconnectAttempts = st.reconnectAttempts + 1 ∧
    (∃ t ∈ (scheduleReconnect st).timers,
      (scheduleReconnect st).reconnectTimeout = some t.id ∧
      t.kind = TimerKind.reconnect ∧
      t.delay = min 30000 (1000 * 2 ^ st.reconnectAttempts)) ∧
    (List.range 7).map reconnectDelay =
      [1000, 2000, 4000, 8000, 16000, 30000, 30000] :=
  ⟨(scheduleReconnect_fields st).2.2.2.2.2, armed_scheduleReconnect st,
   by decide⟩

/-- C2: `connect()` either fully succeeds (status Ok, `connectionFailed`
false, `reconnectAttempts` reset to 0, actions registered) or, on any error
thrown by authentication or feature discovery, fully enters the failure
path (actions not registered, status ConnectionFailure, `connectionFailed`
true, `scheduleReconnect()` invoked); no other operation resets
`reconnectAttempts` to 0. -/
theorem c2_connect_all_or_nothing :
    (∀ (env : ConnectEnv) (st : ModuleState),
      configComplete st.config = true → env.authOutcome.isSome = true →
      env.fetchOutcome.isSome = true →
        (connect env st).status = InstanceStatus.Ok ∧
        (connect env st).connectionFailed = false ∧
        (connect env st).reconnectAttempts = 0 ∧
        (connect env st).actionsRegistered = true) ∧
    (∀ (env : ConnectEnv) (st : ModuleState),
      configComplete st.config = false ∨ env.authOutcome = none ∨
        env.fetchOutcome = none →
        (connect env st).status = InstanceStatus.ConnectionFailure ∧
        (connect env st).connectionFailed = true ∧
        (connect env st).actionsRegistered = st.actionsRegistered ∧
        (connect env st).reconnectAttempts = st.reconnectAttempts + 1 ∧
        ∃ t ∈ (connect env st).timers,
          (connect env st).reconnectTimeout = some t.id ∧
          t.kind = TimerKind.reconnect) ∧
    (∀ (op : Op) (st : ModuleState), st.reconnectAttempts ≠ 0 →
      (applyOp op st).reconnectAttempts = 0 → opConnectSuccess op = true) :=
  ⟨connect_success, connect_failure, attempts_reset_only_by_successful_connect⟩

theorem c2_witness :
    (connect okEnv { initialState with config := goodConfig }).reconnectAttempts
      = 0 ∧
    (connect emptyEnv initialState).status =
      InstanceStatus.ConnectionFailure ∧
    opConnectSuccess (Op.opConnect okEnv) = true := by
  refine ⟨?_, ?_, ?_⟩
  · exact (c2_connect_all_or_nothing.1 okEnv
      { initialState with config := goodConfig }
      (by decide) (by decide) (by decide)).2.2.1
  · exact (c2_connect_all_or_nothing.2.1 emptyEnv initialState
      (Or.inr (Or.inl rfl))).1
  · exact c2_connect_all_or_nothing.2.2 (Op.opConnect okEnv)
      { initialState with config := goodConfig, reconnectAttempts := 3 }
      (by decide) (by decide)

/-- A state with a live heartbeat interval, used to refute C3 as stated. -/
def c3State : ModuleState :=
  { initialState with
      config := goodConfig
      heartbeatInterval := some 0
      timers := [{ id := 0, kind := TimerKind.heartbeat, delay := 30000 }]
      nextTimerId := 1 }

/-- C3 counterexample: applying a configuration with missing required fields
via `configUpdated` neither stops the running heartbeat timer (it stays
live) nor restarts the connect sequence (the call returns with BadConfig),
refuting the claim quantified over every new configuration. -/
theorem c3_counterexample :
    (configUpdated { host := none, username := none, password := none }
      emptyEnv c3State).heartbeatInterval = some 0 ∧
    heartbeatTimers (configUpdated { host := none,
                                     username := none,
                                     password := none } emptyEnv c3State) =
      [{ id := 0, kind := TimerKind.heartbeat, delay := 30000 }] ∧
    (configUpdated { host := none, username := none, password := none }
      emptyEnv c3State).status = InstanceStatus.BadConfig :=
  ⟨rfl, rfl, rfl⟩

/-- C3 (amended): for every current state and every new configuration whose
required fields are all present, `configUpdated(config)` stops the running
heartbeat timer and restarts the full connect sequence. -/
theorem c3_amended_configUpdated (c : Config) (env : ConnectEnv)
    (st : ModuleState) (hc : configComplete c = true) (hr : Reachable st) :
    configUpdated c env st =
      connect env (stopHeartbeat { st with config := c }) ∧
    heartbeatTimers (stopHeartbeat { st with config := c }) = [] := by
  constructor
  · simp [configUpdated, hc]
  · exact heartbeatTimers_stopHeartbeat
      (timerInv_congr (timerInv_reachable hr) rfl rfl rfl rfl)

theorem c3_witness :
    configUpdated goodConfig emptyEnv initialState =
      connect emptyEnv (stopHeartbeat { initialState with config := goodConfig }) :=
  (c3_amended_configUpdated goodConfig emptyEnv initialState
    (by decide) ⟨[], rfl⟩).1

/-- C4: at every reachable state at most one pending reconnect timer and at
most one active heartbeat timer are live; two successive calls to
`scheduleReconnect()` leave exactly one pending reconnect timer, and
`startHeartbeat()` leaves exactly one live heartbeat interval. -/
theorem c4_at_most_one_timer (st : ModuleState) (e : ExternEffect)
    (h : Reachable st) :
    ((reconnectTimers st).length ≤ 1 ∧ (heartbeatTimers st).length ≤ 1) ∧
    (reconnectTimers (scheduleReconnect (scheduleReconnect st))).length = 1 ∧
    (heartbeatTimers (startHeartbeat e st)).length = 1 := by
  have hi := timerInv_reachable h
  refine ⟨⟨reconnectTimers_length_le_one hi,
    heartbeatTimers_length_le_one hi⟩, ?_, ?_⟩
  · rw [reconnectTimers_scheduleReconnect (timerInv_scheduleReconnect hi)]
    rfl
  · rw [heartbeatTimers_startHeartbeat e hi]
    rfl

theorem c4_witness :
    ((reconnectTimers initialState).length ≤ 1 ∧
      (heartbeatTimers initialState).length ≤ 1) ∧
    (reconnectTimers
      (scheduleReconnect (scheduleReconnect initialState))).length = 1 ∧
    (heartbeatTimers
      (startHeartbeat { net := 0, nc := 0 } initialState)).length = 1 :=
  c4_at_most_one_timer initialState { net := 0, nc := 0 } ⟨[], rfl⟩

/-- C5: the nc values carried by a sequence of requests issued through
`digestAuth` on the shared counter are consecutive, strictly increasing by
exactly 1 per request, and never reused; the counter afterwards has advanced
by the number of requests. -/
theorem c5_nc_counter_sequence (st : ModuleState) (n : Nat) :
    (issueRequests n st).1 = (List.range n).map (fun i => st.ncCounter + i) ∧
    List.Chain' (fun a b => b = a + 1) (issueRequests n st).1 ∧
    (issueRequests n st).1.Nodup ∧
    (issueRequests n st).2.ncCounter = st.ncCounter + n := by
  obtain ⟨h1, h2⟩ := issueRequests_spec n st
  refine ⟨h1, ?_, ?_, h2⟩
  · rw [h1]
    exact chain_map_range n st.ncCounter
  · rw [h1]
    exact (List.nodup_range n).map (fun a b hab => by simpa using hab)

/-- C6: when any required field (host, username, password) is empty or
missing, both `init` and `configUpdated` set status BadConfig and return
without any network call or connect attempt: no network request, no timer
armed, nonce counter and attempt counter untouched, and `configUpdated`
leaves the heartbeat field unchanged. -/
theorem c6_bad_config (c : Config) (env : ConnectEnv) (st : ModuleState)
    (h : truthy c.host = false ∨ truthy c.username = false ∨
      truthy c.password = false) :
    (init c env st).status = InstanceStatus.BadConfig ∧
    (init c env st).networkCalls = st.networkCalls ∧
    (init c env st).timers = st.timers ∧
    (init c env st).ncCounter = st.ncCounter ∧
    (init c env st).reconnectAttempts = st.reconnectAttempts ∧
    (configUpdated c env st).status = InstanceStatus.BadConfig ∧
    (configUpdated c env st).networkCalls = st.networkCalls ∧
    (configUpdated c env st).timers = st.timers ∧
    (configUpdated c env st).ncCounter = st.ncCounter ∧
    (configUpdated c env st).heartbeatInterval = st.heartbeatInterval := by
  have hc : configComplete c = false := by
    rcases h with h | h | h <;> simp [configComplete, h]
  simp [init, configUpdated, hc, logLine]

theorem c6_witness :
    (init { host := none, username := some "u", password := some "p" }
      emptyEnv initialState).status = InstanceStatus.BadConfig ∧
    (configUpdated { host := none, username := some "u", password := some "p" }
      emptyEnv initialState).networkCalls = initialState.networkCalls :=
  ⟨(c6_bad_config { host := none, username := some "u", password := some "p" }
      emptyEnv initialState (Or.inl rfl)).1,
   (c6_bad_config { host := none, username := some "u", password := some "p" }
      emptyEnv initialState (Or.inl rfl)).2.2.2.2.2.2.1⟩

/-- C7: `getVariableChoices(type)` maps a non-empty list under the type in
`matrixVariables` in order to `{ id: value, label: value }` objects; when
the mapping is unset, the type absent, or the list empty, it returns the
empty list and logs a warning. -/
theorem c7_getVariableChoices (ty : String) (st : ModuleState) :
    (∀ vals, (st.matrixVariables.getD []).lookup ty = some vals →
      vals ≠ [] →
      (getVariableChoices ty st).1 =
        vals.map (fun v => ({ id := v, label := v } : Choice))) ∧
    ((st.matrixVariables = none ∨
        (st.matrixVariables.getD []).lookup ty = none ∨
        (st.matrixVariables.getD []).lookup ty = some []) →
      (getVariableChoices ty st).1 = [] ∧
      ("warn", "not initialized or empty. Returning empty array.") ∈
        (getVariableChoices ty st).2) := by
  constructor
  · intro vals hv hne
    have hemp : vals.isEmpty = false := by
      cases vals with
      | nil => exact absurd rfl hne
      | cons a l => rfl
    simp [getVariableChoices, hv, hemp]
  · intro hcase
    rcases hcase with h0 | h0 | h0
    · have hnone : st.matrixVariables.getD [] =
          ([] : List (String × List String)) := by
        rw [h0]
        rfl
      simp [getVariableChoices, hnone]
    · simp [getVariableChoices, h0]
    · simp [getVariableChoices, h0]

/-- A state whose matrix variables hold a sources list. -/
def c7State : ModuleState :=
  { initialState with matrixVariables := some [("sources", ["A", "B"])] }

theorem c7_witness :
    (getVariableChoices "sources" c7State).1 =
      [{ id := "A", label := "A" }, { id := "B", label := "B" }] ∧
    (getVariableChoices "sources" initialState).1 = [] := by
  constructor
  · exact (c7_getVariableChoices "sources" c7State).1 ["A", "B"]
      (by decide) (by decide)
  · exact ((c7_getVariableChoices "sources" initialState).2 (Or.inl rfl)).1

/-- C8: when a heartbeat probe throws, the interval callback stops the
heartbeat timer, sets status ConnectionFailure and invokes
`scheduleReconnect()`; it performs no retry or re-authentication of its own
(no network call and no nonce use beyond the failed probe itself). -/
theorem c8_heartbeat_failure (e : ExternEffect) (st : ModuleState)
    (h : Reachable st) :
    (heartbeatTick HBOutcome.err e st).heartbeatInterval = none ∧
    heartbeatTimers (heartbeatTick HBOutcome.err e st) = [] ∧
    (heartbeatTick HBOutcome.err e st).status =
      InstanceStatus.ConnectionFailure ∧
    (heartbeatTick HBOutcome.err e st).reconnectAttempts =
      st.reconnectAttempts + 1 ∧
    (∃ t ∈ (heartbeatTick HBOutcome.err e st).timers,
      (heartbeatTick HBOutcome.err e st).reconnectTimeout = some t.id ∧
      t.kind = TimerKind.reconnect) ∧
    (heartbeatTick HBOutcome.err e st).networkCalls =
      st.networkCalls + e.net ∧
    (heartbeatTick HBOutcome.err e st).ncCounter = st.ncCounter + e.nc := by
  have hkey : heartbeatTick HBOutcome.err e st =
      scheduleReconnect (stopHeartbeat
        { logLine "warn" "Heartbeat failed" (applyExtern e st) with
            status := InstanceStatus.ConnectionFailure }) := rfl
  have hinv : TimerInv (stopHeartbeat
      { logLine "warn" "Heartbeat failed" (applyExtern e st) with
          status := InstanceStatus.ConnectionFailure }) :=
    timerInv_stopHeartbeat
      (timerInv_congr (timerInv_reachable h) rfl rfl rfl rfl)
  obtain ⟨f1, f2, f3, f4, f5, f6⟩ := scheduleReconnect_fields (stopHeartbeat
    { logLine "warn" "Heartbeat failed" (applyExtern e st) with
        status := InstanceStatus.ConnectionFailure })
  obtain ⟨g1, g2, g3, g4, g5, g6⟩ := stopHeartbeat_fields
    { logLine "warn" "Heartbeat failed" (applyExtern e st) with
        status := InstanceStatus.ConnectionFailure }
  refine ⟨?_, ?_, ?_, ?_, ?_, ?_, ?_⟩
  · rw [hkey, f4]
    exact stopHeartbeat_hbIV _
  · rw [hkey]
    refine heartbeatTimers_eq_nil_of_none (timerInv_scheduleReconnect hinv) ?_
    rw [f4]
    exact stopHeartbeat_hbIV _
  · rw [hkey, f1, g1]
  · rw [hkey, f6, g4]
    rfl
  · rw [hkey]
    obtain ⟨t, hm, hf, hk, _⟩ := armed_scheduleReconnect (stopHeartbeat
      { logLine "warn" "Heartbeat failed" (applyExtern e st) with
          status := InstanceStatus.ConnectionFailure })
    exact ⟨t, hm, hf, hk⟩
  · rw [hkey, f5, g6]
    rfl
  · rw [hkey, ncCounter_scheduleReconnect, ncCounter_stopHeartbeat]
    rfl

theorem c8_witness :
    (heartbeatTick HBOutcome.err { net := 1, nc := 1 }
      initialState).status = InstanceStatus.ConnectionFailure :=
  (c8_heartbeat_failure { net := 1, nc := 1 } initialState ⟨[], rfl⟩).2.2.1

/-- C9: at every reachable state, `destroy()` cancels the heartbeat interval
and any pending reconnect timer: no timer of either kind survives
destruction. -/
theorem c9_destroy_no_timers (st : ModuleState) (h : Reachable st) :
    (destroy st).timers = [] ∧
    reconnectTimers (destroy st) = [] ∧
    heartbeatTimers (destroy st) = [] := by
  have h0 := destroy_timers_nil (timerInv_reachable h)
  refine ⟨h0, ?_, ?_⟩ <;> simp [reconnectTimers, heartbeatTimers, h0]

theorem c9_witness :
    (destroy (scheduleReconnect initialState)).timers = [] :=
  (c9_destroy_no_timers (scheduleReconnect initialState)
    ⟨[Op.opScheduleReconnect], rfl⟩).1

/-- C10: the shared nonce counter starts at 1 in the constructor and no
operation (init, configUpdated, connect, authenticate, scheduleReconnect,
startHeartbeat, stopHeartbeat, heartbeat tick, destroy, digestAuth) ever
resets or decreases it. -/
theorem c10_nc_counter_monotone :
    initialState.ncCounter = 1 ∧
    ∀ (op : Op) (st : ModuleState),
      st.ncCounter ≤ (applyOp op st).ncCounter := by
  refine ⟨rfl, ?_⟩
  intro op st
  cases op with
  | opInit c env => exact ncCounter_init c env st
  | opConfigUpdated c env => exact ncCounter_configUpdated c env st
  | opConnect env => exact ncCounter_connect env st
  | opAuthenticate o e => exact ncCounter_authenticateStep o e st
  | opScheduleReconnect =>
    exact Nat.le_of_eq (ncCounter_scheduleReconnect st).symm
  | opStartHeartbeat e =>
    show st.ncCounter ≤ (startHeartbeat e st).ncCounter
    rw [ncCounter_startHeartbeat]
    omega
  | opStopHeartbeat => exact Nat.le_of_eq (ncCounter_stopHeartbeat st).symm
  | opHeartbeatTick o e => exact ncCounter_heartbeatTick o e st
  | opDestroy => exact Nat.le_of_eq (ncCounter_destroy st).symm
  | opDigestAuth =>
    show st.ncCounter ≤ st.ncCounter + 1
    omega

end TielineGateway
